import Mathlib

/-! # Traffic capture engine (`packages/native-agent`)

A shallow embedding of `TrafficCapture` from `src/traffic_capture.cpp` and
`include/traffic_capture.h`, followed by the properties proved about it.

Conventions of the embedding

* `std::string` is a list of characters (`CppString`); `==` on strings is
  equality of lists, `::tolower` is `Char.toLower` (ASCII only, as in the
  "C" locale) and `std::string::find(..) != npos` is a substring search.
* `UINT8`, `UINT16`, `DWORD` and `UINT64` values are natural numbers; the only
  arithmetic performed on them is `totalPackets++` on a `UINT64`, which is
  taken modulo `2 ^ 64`, and `ntohs` on a `UINT16`.
* A `HANDLE` is `Option Nat`, with `none` standing for `INVALID_HANDLE_VALUE`.
* The three `double` fields of `NetworkMetrics` are only ever value-initialised
  and copied, never computed with; they are carried as rationals.
* Calls into the kernel diversion facility and the process snapshot API are
  results supplied by the environment; calls that act on the outside world are
  recorded in a list of `Effect`s returned next to the new state. Writes to
  `std::cout` and `std::cerr` are left out.
* The worker thread reads the shared members where the code reads them: a pass
  of its loop takes as arguments what the owner thread does between those
  reads. In the lifetime of an engine (`Reachable`) the calls of the owner and
  the passes of the worker are put in one sequence.
-/

namespace GamingProxy

/-! ## Data model (`traffic_capture.h`) -/

/-- A `std::string`, as its sequence of characters. -/
abbrev CppString := List Char

/-- An entry of the application database (`struct GameProcess`). -/
structure GameProcess where
  processId : Nat
  processName : CppString
  keywords : List CppString
  defaultPorts : List Nat
deriving DecidableEq

/-- The packet descriptor built by `ProcessPacket` (`struct PacketInfo`). -/
structure PacketInfo where
  sourceIp : CppString
  sourcePort : Nat
  destIp : CppString
  destPort : Nat
  protocol : CppString
  data : List Nat
  timestamp : Nat
deriving DecidableEq

/-- The relay configuration handed to `StartCapture` (`struct TunnelConfig`). -/
structure TunnelConfig where
  nodeIp : CppString
  nodePort : Nat
  sessionId : CppString
  enabled : Bool
deriving DecidableEq

/-! ## Redirection policy (`ShouldRedirectPacket`) -/

/-- The loop `for (UINT16 port : ports) if (info.destPort == port) return true;`:
`true` when it returns, `false` when it runs to its end. -/
def portLoop (destPort : Nat) : List Nat → Bool
  | [] => false
  | port :: rest => if destPort = port then true else portLoop destPort rest

/-- The first loop of `ShouldRedirectPacket`: walk the database up to the first
entry whose `processName` equals the current game id, scan that entry's default
ports, then `break`. The result is `true` when the loop returned `true` and
`false` when control falls through to the code after the loop. -/
def gameLoop (currentGameId : CppString) (destPort : Nat) : List GameProcess → Bool
  | [] => false
  | game :: rest =>
    if game.processName = currentGameId then portLoop destPort game.defaultPorts
    else gameLoop currentGameId destPort rest

/-- The local vector `commonGamePorts` of `ShouldRedirectPacket`. -/
def commonGamePorts : List Nat :=
  [27015, 27016, 27017, 7000, 7001, 7002, 5000, 5001, 5002, 3074, 80, 443]

/-- `TrafficCapture::ShouldRedirectPacket`, reading `m_gameDatabase` and
`m_currentGameId` from its first two arguments. -/
def ShouldRedirectPacket (m_gameDatabase : List GameProcess) (m_currentGameId : CppString)
    (info : PacketInfo) : Bool :=
  if gameLoop m_currentGameId info.destPort m_gameDatabase then true
  else portLoop info.destPort commonGamePorts

/-! ## Filter construction (the `filterStream` block of `StartCapture`) -/

/-- What `filterStream << n` appends for an unsigned integer: its decimal digits. -/
def decimal (n : Nat) : CppString := Nat.toDigits 10 n

/-- The loop `for (size_t i = 0; i < m_currentProcessIds.size(); ++i)` of
`StartCapture`, run over the ids that remain, with the current index `i` and the
current content of `filterStream`. -/
def filterLoop : List Nat → Nat → CppString → CppString
  | [], _, filterStream => filterStream
  | processId :: rest, i, filterStream =>
    let filterStream := if i > 0 then filterStream ++ " or ".toList else filterStream
    filterLoop rest (i + 1) (filterStream ++ "processId == ".toList ++ decimal processId)

/-- The string `filter` that `StartCapture` passes to `WinDivertOpen`. -/
def buildFilter (m_currentProcessIds : List Nat) : CppString :=
  filterLoop m_currentProcessIds 0 "outbound and (".toList ++ ")".toList

/-- The ten decimal digits. -/
def decimalDigits : List Char := "0123456789".toList

/-- The disjunct that the loop writes for one process id. -/
def processIdTerm (pid : Nat) : CppString := "processId == ".toList ++ decimal pid

/-- Number of positions of `s` at which `pat` starts (occurrences may overlap). -/
def occurrences (pat : CppString) : CppString → Nat
  | [] => 0
  | c :: s => (if pat.isPrefixOf (c :: s) then 1 else 0) + occurrences pat s

/-! ## Process resolution (`FindGameProcesses`) -/

/-- The fields of `PROCESSENTRY32` that `FindGameProcesses` reads. -/
structure ProcessEntry where
  th32ProcessID : Nat
  szExeFile : CppString
deriving DecidableEq

/-- The loop that sets `gameConfig`: the first database entry whose
`processName` equals `gameId`, or `none` for the null pointer. -/
def findGameConfig (gameId : CppString) : List GameProcess → Option GameProcess
  | [] => none
  | game :: rest =>
    if game.processName = gameId then some game else findGameConfig gameId rest

/-- The call `std::transform(s.begin(), s.end(), s.begin(), ::tolower)`. -/
def toLowerString (s : CppString) : CppString := s.map Char.toLower

/-- The test `haystack.find(needle) != std::string::npos`: try `needle` at the
first position, then at the positions that follow. -/
def findSubstring (needle : CppString) : CppString → Bool
  | [] => needle.isPrefixOf []
  | c :: rest => needle.isPrefixOf (c :: rest) || findSubstring needle rest

/-- The inner loop over `gameConfig->keywords`: `true` when some keyword made it
`push_back` and `break`, `false` when it ran to its end. -/
def keywordLoop (processName : CppString) : List CppString → Bool
  | [] => false
  | keyword :: rest =>
    let lowerKeyword := toLowerString keyword
    if findSubstring lowerKeyword processName then true else keywordLoop processName rest

/-- The `do { … } while (Process32Next(…))` loop over the entries of the
snapshot, threading the vector `processIds`. -/
def processLoop (gameConfig : GameProcess) : List ProcessEntry → List Nat → List Nat
  | [], processIds => processIds
  | pe32 :: rest, processIds =>
    let processName := toLowerString pe32.szExeFile
    if keywordLoop processName gameConfig.keywords then
      processLoop gameConfig rest (processIds ++ [pe32.th32ProcessID])
    else processLoop gameConfig rest processIds

/-- `TrafficCapture::FindGameProcesses`. The argument `snapshot` is what the
process snapshot API yields: `none` when `CreateToolhelp32Snapshot` returns
`INVALID_HANDLE_VALUE`, otherwise the entries enumerated by `Process32First` and
`Process32Next` (no entry when `Process32First` fails). -/
def FindGameProcesses (m_gameDatabase : List GameProcess) (gameId : CppString)
    (snapshot : Option (List ProcessEntry)) : List Nat :=
  match findGameConfig gameId m_gameDatabase with
  | none => []
  | some gameConfig =>
    match snapshot with
    | none => []
    | some entries => processLoop gameConfig entries []

/-- The resolver as the specification words it: the ids of the enumerated
processes whose lowered image name contains a lowered keyword as a substring. -/
def resolveSpec (target : GameProcess) (entries : List ProcessEntry) : List Nat :=
  (entries.filter fun pe =>
    decide (∃ keyword ∈ target.keywords,
      toLowerString keyword <:+: toLowerString pe.szExeFile)).map ProcessEntry.th32ProcessID

/-! ## Packet classification (`ProcessPacket`) -/

/-- An IPv4 address as the four bytes it occupies in the header. -/
structure IPv4Address where
  b0 : Nat
  b1 : Nat
  b2 : Nat
  b3 : Nat
deriving DecidableEq

/-- The fields of `WINDIVERT_IPHDR` that `ProcessPacket` reads. -/
structure WinDivertIpHdr where
  SrcAddr : IPv4Address
  DstAddr : IPv4Address
deriving DecidableEq

/-- The fields of `WINDIVERT_TCPHDR` that `ProcessPacket` reads: the two port
fields as the `UINT16` values loaded from the header, in network byte order. -/
structure WinDivertTcpHdr where
  SrcPort : Nat
  DstPort : Nat
deriving DecidableEq

/-- The fields of `WINDIVERT_UDPHDR` that `ProcessPacket` reads. -/
structure WinDivertUdpHdr where
  SrcPort : Nat
  DstPort : Nat
deriving DecidableEq

/-- Modelled from the spec: the result of the facility's
`parseHeaders(bytes) -> (ipHeader, tcpHeader?, udpHeader?, payload)`, which the
code obtains as the out-parameters of a successful `WinDivertHelperParsePacket`
(declared in `windivert.h`, outside the repository). A transport header pointer
that is left null is `none`, as is a null `payload`; the IP header is always
there, and `ProcessPacket` reads it without a null test. -/
structure ParsedPacket where
  ipHeader : WinDivertIpHdr
  tcpHeader : Option WinDivertTcpHdr
  udpHeader : Option WinDivertUdpHdr
  payload : Option (List Nat)
  payloadLen : Nat
deriving DecidableEq

/-- The `UINT16` a little-endian host loads from two consecutive bytes. -/
def loadUInt16 (firstByte secondByte : Nat) : Nat := firstByte + 256 * secondByte

/-- The function `ntohs` on a little-endian host: swap the two bytes. -/
def ntohs (netshort : Nat) : Nat := (netshort % 256) * 256 + (netshort / 256) % 256

/-- The call `inet_ntop(AF_INET, &addr, …)`: dotted decimal. -/
def inet_ntop (addr : IPv4Address) : CppString :=
  decimal addr.b0 ++ ".".toList ++ decimal addr.b1 ++ ".".toList ++ decimal addr.b2 ++
    ".".toList ++ decimal addr.b3

/-- The part of `ProcessPacket` from the parse to the payload copy: the
descriptor `info` when control reaches the policy check, `none` when the
function has returned `false` before. `parsed` is the outcome of
`WinDivertHelperParsePacket` (`none` when it returns false) and `tick` the value
of `GetTickCount64()`. -/
def classify (parsed : Option ParsedPacket) (tick : Nat) : Option PacketInfo :=
  match parsed with
  | none => none
  | some hdrs =>
    let sourceIp := inet_ntop hdrs.ipHeader.SrcAddr
    let destIp := inet_ntop hdrs.ipHeader.DstAddr
    let data : List Nat :=
      match hdrs.payload with
      | some bytes => if hdrs.payloadLen > 0 then bytes.take hdrs.payloadLen else []
      | none => []
    match hdrs.tcpHeader with
    | some tcpHeader =>
      some { sourceIp := sourceIp, sourcePort := ntohs tcpHeader.SrcPort, destIp := destIp,
             destPort := ntohs tcpHeader.DstPort, protocol := "tcp".toList, data := data,
             timestamp := tick }
    | none =>
      match hdrs.udpHeader with
      | some udpHeader =>
        some { sourceIp := sourceIp, sourcePort := ntohs udpHeader.SrcPort, destIp := destIp,
               destPort := ntohs udpHeader.DstPort, protocol := "udp".toList, data := data,
               timestamp := tick }
      | none => none

/-! ## The engine (`class TrafficCapture`) -/

/-- The metrics record (`TrafficCapture::NetworkMetrics`); `totalPackets` and
`droppedPackets` are `UINT64`. -/
structure NetworkMetrics where
  avgPing : ℚ
  jitter : ℚ
  packetLoss : ℚ
  totalPackets : Nat
  droppedPackets : Nat
deriving DecidableEq

/-- The data members of `TrafficCapture`. `m_winDivertHandle = none` is
`INVALID_HANDLE_VALUE`; `m_captureThread` tells whether the `unique_ptr` holds a
thread object. The mutex carries no data and is left out. -/
structure TrafficCapture where
  m_winDivertHandle : Option Nat
  m_captureThread : Bool
  m_isCapturing : Bool
  m_shouldStop : Bool
  m_gameDatabase : List GameProcess
  m_tunnelConfig : TunnelConfig
  m_localProxyPort : Nat
  m_metrics : NetworkMetrics
  m_currentGameId : CppString
  m_currentProcessIds : List Nat
deriving DecidableEq

/-- The `WINDIVERT_ADDRESS` that travels with a packet, as its raw content. -/
abbrev WinDivertAddress := List Nat

/-- Calls that act on the kernel facility or on the worker thread. -/
inductive Effect where
  | WinDivertOpen (filter : CppString)
  | WinDivertClose (handle : Nat)
  | WinDivertSend (handle : Option Nat) (packet : List Nat) (packetLen : Nat)
      (addr : WinDivertAddress)
  | threadStart
  | threadJoin
deriving DecidableEq

/-- What `WinDivertRecv` hands back: a packet with its length and address, or a
failure with the value of `GetLastError()`. -/
inductive RecvResult where
  | received (packet : List Nat) (packetLen : Nat) (addr : WinDivertAddress)
  | failed (error : Nat)
deriving DecidableEq

/-- How one pass through the body of the `while` loop ends. -/
inductive LoopControl where
  | next
  | exit
deriving DecidableEq

/-- The Windows error code `ERROR_NO_DATA`. -/
def ERROR_NO_DATA : Nat := 232

/-- The constructor `TrafficCapture::TrafficCapture`. `m_tunnelConfig` is default-initialised, which leaves its
two scalar members indeterminate: they are the arguments. -/
def TrafficCapture.construct (nodePort : Nat) (enabled : Bool) : TrafficCapture :=
  { m_winDivertHandle := none
    m_captureThread := false
    m_isCapturing := false
    m_shouldStop := false
    m_gameDatabase := []
    m_tunnelConfig := { nodeIp := [], nodePort := nodePort, sessionId := [], enabled := enabled }
    m_localProxyPort := 8888
    m_metrics := { avgPing := 0, jitter := 0, packetLoss := 0, totalPackets := 0,
                   droppedPackets := 0 }
    m_currentGameId := []
    m_currentProcessIds := [] }

/-- `TrafficCapture::IsCapturing`. -/
def TrafficCapture.IsCapturing (self : TrafficCapture) : Bool := self.m_isCapturing

/-- `TrafficCapture::GetMetrics`. -/
def TrafficCapture.GetMetrics (self : TrafficCapture) : NetworkMetrics := self.m_metrics

/-- `TrafficCapture::SetGameDatabase`. -/
def TrafficCapture.SetGameDatabase (self : TrafficCapture) (games : List GameProcess) :
    TrafficCapture :=
  { self with m_gameDatabase := games }

/-- `TrafficCapture::SetLocalProxyPort`. -/
def TrafficCapture.SetLocalProxyPort (self : TrafficCapture) (port : Nat) : TrafficCapture :=
  { self with m_localProxyPort := port }

/-- `TrafficCapture::Initialize`; `probe` is what the test `WinDivertOpen`
returns. The engine's members are not touched. -/
def TrafficCapture.Initialize (_self : TrafficCapture) (probe : Option Nat) :
    Bool × List Effect :=
  match probe with
  | none => (false, [Effect.WinDivertOpen "false".toList])
  | some testHandle =>
    (true, [Effect.WinDivertOpen "false".toList, Effect.WinDivertClose testHandle])

/-- `TrafficCapture::IsGameRunning`. -/
def TrafficCapture.IsGameRunning (self : TrafficCapture) (gameId : CppString)
    (snapshot : Option (List ProcessEntry)) : Bool :=
  !(FindGameProcesses self.m_gameDatabase gameId snapshot).isEmpty

/-- `TrafficCapture::StartCapture`. `snapshot` is the process enumeration seen
by `FindGameProcesses` and `kernelOpen filter` is what `WinDivertOpen` returns
for a filter (`none` for `INVALID_HANDLE_VALUE`). -/
def TrafficCapture.StartCapture (self : TrafficCapture) (gameId : CppString)
    (config : TunnelConfig) (snapshot : Option (List ProcessEntry))
    (kernelOpen : CppString → Option Nat) : Bool × TrafficCapture × List Effect :=
  if self.m_isCapturing then (false, self, [])
  else
    let self := { self with m_currentGameId := gameId, m_tunnelConfig := config }
    let self :=
      { self with m_currentProcessIds := FindGameProcesses self.m_gameDatabase gameId snapshot }
    if self.m_currentProcessIds.isEmpty then (false, self, [])
    else
      let filter := buildFilter self.m_currentProcessIds
      let self := { self with m_winDivertHandle := kernelOpen filter }
      if self.m_winDivertHandle = none then (false, self, [Effect.WinDivertOpen filter])
      else
        let self := { self with m_shouldStop := false, m_isCapturing := true,
                                m_captureThread := true }
        (true, self, [Effect.WinDivertOpen filter, Effect.threadStart])

/-- `TrafficCapture::StopCapture`. -/
def TrafficCapture.StopCapture (self : TrafficCapture) : Bool × TrafficCapture × List Effect :=
  if !self.m_isCapturing then (true, self, [])
  else
    let self := { self with m_shouldStop := true }
    let closing : List Effect :=
      match self.m_winDivertHandle with
      | some handle => [Effect.WinDivertClose handle]
      | none => []
    let self := { self with m_winDivertHandle := none }
    let joining : List Effect := if self.m_captureThread then [Effect.threadJoin] else []
    let self := { self with m_isCapturing := false, m_captureThread := false }
    (true, self, closing ++ joining)

/-- `TrafficCapture::RedirectToProxy`: the `UINT64` counter `totalPackets` is
incremented. -/
def TrafficCapture.RedirectToProxy (self : TrafficCapture) (_info : PacketInfo) :
    Bool × TrafficCapture :=
  (true, { self with m_metrics :=
    { self.m_metrics with totalPackets := (self.m_metrics.totalPackets + 1) % 2 ^ 64 } })

/-- `TrafficCapture::ProcessPacket`. `parsePacket` is the library function
`WinDivertHelperParsePacket` and `tick` the value of `GetTickCount64()`. The
`catch` branch is not modelled: nothing in the body throws unless an allocation
or a stream fails. -/
def TrafficCapture.ProcessPacket (self : TrafficCapture)
    (parsePacket : List Nat → Nat → Option ParsedPacket) (tick : Nat)
    (packet : List Nat) (packetLen : Nat) : Bool × TrafficCapture :=
  match classify (parsePacket packet packetLen) tick with
  | none => (false, self)
  | some info =>
    if ShouldRedirectPacket self.m_gameDatabase self.m_currentGameId info then
      self.RedirectToProxy info
    else (false, self)

/-- What the owner thread can do to the members while the worker is inside a
pass of its loop: a complete call of a member function that writes a member, or
`StopCapture` up to its `join`, which does not return before the worker has left
the loop. The calls that write nothing are not listed: the getters,
`Initialize`, `IsGameRunning`, and `StartCapture`, which returns at its first
test as long as `m_isCapturing` is set. -/
inductive OwnerAction where
  | SetGameDatabase (games : List GameProcess)
  | SetLocalProxyPort (port : Nat)
  | StopCaptureToJoin
deriving DecidableEq

/-- The statements of `StopCapture` that precede the `join`: the test of
`m_isCapturing`, the stop flag, and the close of the handle, which is then set
to `INVALID_HANDLE_VALUE`. -/
def TrafficCapture.StopCaptureToJoin (self : TrafficCapture) : TrafficCapture × List Effect :=
  if !self.m_isCapturing then (self, [])
  else
    let self := { self with m_shouldStop := true }
    let closing : List Effect :=
      match self.m_winDivertHandle with
      | some handle => [Effect.WinDivertClose handle]
      | none => []
    ({ self with m_winDivertHandle := none }, closing)

/-- The engine after one action of the owner, and the calls the action makes. -/
def TrafficCapture.act (self : TrafficCapture) : OwnerAction → TrafficCapture × List Effect
  | OwnerAction.SetGameDatabase games => (self.SetGameDatabase games, [])
  | OwnerAction.SetLocalProxyPort port => (self.SetLocalProxyPort port, [])
  | OwnerAction.StopCaptureToJoin => self.StopCaptureToJoin

/-- The engine after a sequence of actions of the owner, and the calls made. -/
def TrafficCapture.overlap (self : TrafficCapture) :
    List OwnerAction → TrafficCapture × List Effect
  | [] => (self, [])
  | action :: rest =>
    let (self', effects) := self.act action
    let (self'', later) := TrafficCapture.overlap self' rest
    (self'', effects ++ later)

/-- One pass of the `while (!m_shouldStop)` loop of `CaptureThreadFunction`,
from the test of the loop condition on. `recv` is what `WinDivertRecv` yields.
The worker reads the members again where the code does, so the pass takes what
the owner does in the meantime: `whileReceiving` between the test of the loop
condition and the return of `WinDivertRecv`, `beforeSend` between the return of
`ProcessPacket` and the call of `WinDivertSend`. The stop flag tested after a
failed receive and the members read by `ProcessPacket` are those left by
`whileReceiving`; the handle passed to `WinDivertSend` is the one left by
`beforeSend`. The calls are listed in the order in which they are made. -/
def TrafficCapture.captureIteration (self : TrafficCapture)
    (parsePacket : List Nat → Nat → Option ParsedPacket) (tick : Nat) (recv : RecvResult)
    (whileReceiving beforeSend : List OwnerAction) :
    LoopControl × TrafficCapture × List Effect :=
  if self.m_shouldStop then (LoopControl.exit, self, [])
  else
    match self.overlap whileReceiving with
    | (self, ownerCalls) =>
      match recv with
      | RecvResult.failed error =>
        if error = ERROR_NO_DATA || self.m_shouldStop then (LoopControl.exit, self, ownerCalls)
        else (LoopControl.next, self, ownerCalls)
      | RecvResult.received packet packetLen addr =>
        match self.ProcessPacket parsePacket tick packet packetLen with
        | (true, self') => (LoopControl.next, self', ownerCalls)
        | (false, self') =>
          match self'.overlap beforeSend with
          | (self'', laterCalls) =>
            (LoopControl.next, self'',
              ownerCalls ++ laterCalls ++
                [Effect.WinDivertSend self''.m_winDivertHandle packet packetLen addr])

/-- `TrafficCapture::CaptureThreadFunction` over the results that successive
calls of `WinDivertRecv` yield, each with the tick count read while handling it
and the actions of the owner that overlap the pass: the state and the calls made
when the loop exits or the results run out. -/
def TrafficCapture.CaptureThreadFunction (self : TrafficCapture)
    (parsePacket : List Nat → Nat → Option ParsedPacket) :
    List (Nat × RecvResult × List OwnerAction × List OwnerAction) →
      TrafficCapture × List Effect
  | [] => (self, [])
  | (tick, recv, whileReceiving, beforeSend) :: rest =>
    match self.captureIteration parsePacket tick recv whileReceiving beforeSend with
    | (LoopControl.exit, self', effects) => (self', effects)
    | (LoopControl.next, self', effects) =>
      let (self'', later) := TrafficCapture.CaptureThreadFunction self' parsePacket rest
      (self'', effects ++ later)

/-! ## Lifetime of one engine instance -/

/-- What can happen to an engine after its construction: a call of a public
member function by the owner, or one pass of the worker's loop. A call of the
owner that overlaps a pass is ordered before or after it: the only members a
pass writes are the metrics, which no call of the owner writes and which do not
depend on the flags or on the handle. -/
inductive Operation where
  | Initialize (probe : Option Nat)
  | StartCapture (gameId : CppString) (config : TunnelConfig)
      (snapshot : Option (List ProcessEntry)) (kernelOpen : CppString → Option Nat)
  | StopCapture
  | IsCapturing
  | IsGameRunning (gameId : CppString) (snapshot : Option (List ProcessEntry))
  | GetMetrics
  | SetGameDatabase (games : List GameProcess)
  | SetLocalProxyPort (port : Nat)
  | captureIteration (parsePacket : List Nat → Nat → Option ParsedPacket) (tick : Nat)
      (recv : RecvResult)

/-- The engine after an operation. -/
def TrafficCapture.perform (self : TrafficCapture) : Operation → TrafficCapture
  | Operation.Initialize _ => self
  | Operation.StartCapture gameId config snapshot kernelOpen =>
    (self.StartCapture gameId config snapshot kernelOpen).2.1
  | Operation.StopCapture => self.StopCapture.2.1
  | Operation.IsCapturing => self
  | Operation.IsGameRunning _ _ => self
  | Operation.GetMetrics => self
  | Operation.SetGameDatabase games => self.SetGameDatabase games
  | Operation.SetLocalProxyPort port => self.SetLocalProxyPort port
  | Operation.captureIteration parsePacket tick recv =>
    (self.captureIteration parsePacket tick recv [] []).2.1

/-- Whether an operation can take place in a state: the owner may call any
member function at any time, the worker's loop runs only while the thread
started by `StartCapture` has not been joined. -/
def TrafficCapture.enabled (self : TrafficCapture) : Operation → Prop
  | Operation.captureIteration _ _ _ => self.m_captureThread = true
  | _ => True

/-- The states an engine instance can be in: those reached from the constructor
by operations. -/
inductive Reachable : TrafficCapture → Prop where
  | construct (nodePort : Nat) (enabled : Bool) :
      Reachable (TrafficCapture.construct nodePort enabled)
  | perform (self : TrafficCapture) (op : Operation) :
      Reachable self → self.enabled op → Reachable (self.perform op)

/-! ## Concrete data used to exercise the definitions -/

/-- The database entry of the end-to-end scenario. -/
def valorantEntry : GameProcess :=
  { processId := 0, processName := "valorant".toList, keywords := ["valorant.exe".toList],
    defaultPorts := [7000, 7001, 7002] }

/-- The database of the end-to-end scenario: one entry for `valorant`. -/
def valorantDatabase : List GameProcess := [valorantEntry]

/-- A database in which two entries carry the logical id `valorant`; only the
second lists port 9999. -/
def duplicateIdDatabase : List GameProcess :=
  [{ processId := 0, processName := "valorant".toList, keywords := ["valorant.exe".toList],
     defaultPorts := [7000, 7001, 7002] },
   { processId := 0, processName := "valorant".toList, keywords := ["valorant.exe".toList],
     defaultPorts := [9999] }]

/-- A descriptor that only fixes the destination port. -/
def descriptorTo (destPort : Nat) : PacketInfo :=
  { sourceIp := "10.0.0.2".toList, sourcePort := 50000, destIp := "203.0.113.7".toList,
    destPort := destPort, protocol := "udp".toList, data := [], timestamp := 0 }

/-- A parsed TCP segment from port 50000 to port 443 (bytes `01 BB`). -/
def httpsSegment : ParsedPacket :=
  { ipHeader := { SrcAddr := ⟨10, 0, 0, 2⟩, DstAddr := ⟨203, 0, 113, 7⟩ }
    tcpHeader := some { SrcPort := loadUInt16 195 80, DstPort := loadUInt16 1 187 }
    udpHeader := none
    payload := some [22, 3, 1]
    payloadLen := 3 }

/-- A parsed TCP segment to port 9999 (bytes `27 0F`). -/
def tcpTo9999 : ParsedPacket :=
  { ipHeader := { SrcAddr := ⟨10, 0, 0, 2⟩, DstAddr := ⟨203, 0, 113, 7⟩ }
    tcpHeader := some { SrcPort := loadUInt16 195 80, DstPort := loadUInt16 39 15 }
    udpHeader := none
    payload := none
    payloadLen := 0 }

/-- A parsed UDP datagram to port 7001 (bytes `1B 59`). -/
def udpTo7001 : ParsedPacket :=
  { ipHeader := { SrcAddr := ⟨10, 0, 0, 2⟩, DstAddr := ⟨203, 0, 113, 7⟩ }
    tcpHeader := none
    udpHeader := some { SrcPort := loadUInt16 195 80, DstPort := loadUInt16 27 89 }
    payload := some [1, 2, 3, 4]
    payloadLen := 4 }

/-- A parsed ICMP echo request: neither transport header is present. -/
def icmpEcho : ParsedPacket :=
  { ipHeader := { SrcAddr := ⟨10, 0, 0, 2⟩, DstAddr := ⟨203, 0, 113, 7⟩ }
    tcpHeader := none
    udpHeader := none
    payload := some [8, 0]
    payloadLen := 2 }

/-- A stand-in for `WinDivertHelperParsePacket` that replays synthetic packets,
told apart by their first byte; anything else fails to parse. -/
def replayParser (packet : List Nat) (_packetLen : Nat) : Option ParsedPacket :=
  match packet with
  | 1 :: _ => some udpTo7001
  | 2 :: _ => some tcpTo9999
  | 3 :: _ => some icmpEcho
  | 4 :: _ => some httpsSegment
  | _ => none

/-- A tunnel configuration. -/
def sampleConfig : TunnelConfig :=
  { nodeIp := "198.51.100.1".toList, nodePort := 4000, sessionId := "s-1".toList,
    enabled := true }

/-- Two enumerated processes, one of which matches `valorant.exe`. -/
def sampleProcesses : List ProcessEntry :=
  [{ th32ProcessID := 4, szExeFile := "System".toList },
   { th32ProcessID := 4312, szExeFile := "VALORANT.exe".toList }]

/-- A process snapshot that enumerates `sampleProcesses`. -/
def sampleSnapshot : Option (List ProcessEntry) := some sampleProcesses

/-- A kernel facility that opens every filter with handle 77. -/
def alwaysOpens (_filter : CppString) : Option Nat := some 77

/-- The engine of the end-to-end scenario: the database is loaded and
`StartCapture` has succeeded; `totalPackets` is the argument. -/
def runningEngine (totalPackets : Nat) : TrafficCapture :=
  { m_winDivertHandle := some 77
    m_captureThread := true
    m_isCapturing := true
    m_shouldStop := false
    m_gameDatabase := valorantDatabase
    m_tunnelConfig := sampleConfig
    m_localProxyPort := 8888
    m_metrics := { avgPing := 0, jitter := 0, packetLoss := 0, totalPackets := totalPackets,
                   droppedPackets := 0 }
    m_currentGameId := "valorant".toList
    m_currentProcessIds := [4312] }

/-- One pass of the worker's loop that receives the synthetic UDP datagram to
port 7001. -/
def receiveUdpTo7001 : Operation :=
  Operation.captureIteration replayParser 0 (RecvResult.received [1, 0, 0] 3 [1])

/-! ## Properties -/

/-! ### Redirection policy -/

theorem portLoop_eq_true_iff (destPort : Nat) (ports : List Nat) :
    portLoop destPort ports = true ↔ destPort ∈ ports := by
  induction ports with
  | nil => simp [portLoop]
  | cons port rest ih =>
    by_cases h : destPort = port
    · simp [portLoop, h]
    · simp [portLoop, h, ih]

theorem findGameConfig_eq_find (gameId : CppString) (db : List GameProcess) :
    findGameConfig gameId db = db.find? (fun game => decide (game.processName = gameId)) := by
  induction db with
  | nil => rfl
  | cons game rest ih =>
    by_cases h : game.processName = gameId
    · simp [findGameConfig, List.find?, h]
    · simp [findGameConfig, List.find?, h, ih]

theorem gameLoop_eq (gameId : CppString) (destPort : Nat) (db : List GameProcess) :
    gameLoop gameId destPort db =
      match findGameConfig gameId db with
      | some game => portLoop destPort game.defaultPorts
      | none => false := by
  induction db with
  | nil => rfl
  | cons game rest ih =>
    by_cases h : game.processName = gameId
    · simp [gameLoop, findGameConfig, h]
    · simp [gameLoop, findGameConfig, h, ih]

theorem ShouldRedirectPacket_of_fallback (db : List GameProcess) (gameId : CppString)
    (info : PacketInfo) (h : info.destPort ∈ commonGamePorts) :
    ShouldRedirectPacket db gameId info = true := by
  unfold ShouldRedirectPacket
  split
  · rfl
  · exact (portLoop_eq_true_iff _ _).2 h

/-- C2. Whatever the database and the current application id, a descriptor whose
destination port is one of 27015, 27016, 27017, 7000, 7001, 7002, 5000, 5001,
5002, 3074, 80, 443 is redirected; in particular port 3074 is redirected when no
entry of the database carries the current id. -/
theorem fallback_port_always_redirects :
    (∀ (db : List GameProcess) (gameId : CppString) (info : PacketInfo),
      info.destPort ∈
          [27015, 27016, 27017, 7000, 7001, 7002, 5000, 5001, 5002, 3074, 80, 443] →
        ShouldRedirectPacket db gameId info = true) ∧
    (∀ (db : List GameProcess) (gameId : CppString) (info : PacketInfo),
      (∀ game ∈ db, game.processName ≠ gameId) → info.destPort = 3074 →
        ShouldRedirectPacket db gameId info = true) := by
  refine ⟨fun db gameId info h => ShouldRedirectPacket_of_fallback db gameId info h, ?_⟩
  intro db gameId info _ h
  exact ShouldRedirectPacket_of_fallback db gameId info (by rw [h]; decide)

/-- C2, exercised: port 3074 with an empty database, and with a database that
has no entry for the current id `fortnite`. -/
theorem xbox_port_without_entry :
    ShouldRedirectPacket [] "fortnite".toList (descriptorTo 3074) = true ∧
    ShouldRedirectPacket valorantDatabase "fortnite".toList (descriptorTo 3074) = true :=
  ⟨fallback_port_always_redirects.1 [] _ (descriptorTo 3074) (by decide),
   fallback_port_always_redirects.2 valorantDatabase _ (descriptorTo 3074) (by decide) rfl⟩

/-- C3 as stated fails: the database holds an entry with id `valorant` whose
default ports contain 9999, yet a descriptor to port 9999 is not redirected,
because an earlier entry with the same id ends the search. -/
theorem later_duplicate_entry_is_ignored :
    (∃ game ∈ duplicateIdDatabase,
      game.processName = "valorant".toList ∧ (descriptorTo 9999).destPort ∈ game.defaultPorts) ∧
    ShouldRedirectPacket duplicateIdDatabase "valorant".toList (descriptorTo 9999) = false := by
  decide

/-- C3, amended. If the first entry of the database whose logical id equals the
current application id has the destination port among its default ports, the
descriptor is redirected, whether or not the port is in the fallback list. -/
theorem first_entry_port_redirects (db : List GameProcess) (gameId : CppString)
    (info : PacketInfo) (game : GameProcess)
    (hfirst : db.find? (fun g => decide (g.processName = gameId)) = some game)
    (hport : info.destPort ∈ game.defaultPorts) :
    ShouldRedirectPacket db gameId info = true := by
  have hloop : gameLoop gameId info.destPort db = true := by
    rw [gameLoop_eq, findGameConfig_eq_find, hfirst]
    exact (portLoop_eq_true_iff _ _).2 hport
  simp [ShouldRedirectPacket, hloop]

/-- C3, exercised on a port that only the configuration lists: 9999 is not a
fallback port and is redirected once the first `valorant` entry lists it. -/
theorem configured_only_port_redirects :
    9999 ∉ commonGamePorts ∧
    ShouldRedirectPacket duplicateIdDatabase.reverse "valorant".toList (descriptorTo 9999) =
      true :=
  ⟨by decide,
   first_entry_port_redirects duplicateIdDatabase.reverse "valorant".toList (descriptorTo 9999)
     { processId := 0, processName := "valorant".toList, keywords := ["valorant.exe".toList],
       defaultPorts := [9999] } (by decide) (by decide)⟩

/-! ### Classification -/

theorem ntohs_loadUInt16 (firstByte secondByte : Nat) (h1 : firstByte < 256)
    (h2 : secondByte < 256) :
    ntohs (loadUInt16 firstByte secondByte) = firstByte * 256 + secondByte := by
  unfold ntohs loadUInt16
  omega

theorem classify_eq_none_iff (parsed : Option ParsedPacket) (tick : Nat) :
    classify parsed tick = none ↔
      parsed = none ∨ ∃ hdrs, parsed = some hdrs ∧ hdrs.tcpHeader = none ∧
        hdrs.udpHeader = none := by
  cases parsed with
  | none => simp [classify]
  | some hdrs =>
    rcases hdrs with ⟨ip, tcp, udp, payload, len⟩
    cases tcp <;> cases udp <;> simp [classify]

/-- C4. Classification inside `ProcessPacket`, over the parser's result: with a
TCP header the descriptor is `tcp` with the header's ports passed through
`ntohs`; with no TCP header but a UDP header it is `udp`, ports likewise; `ntohs`
of a field whose two bytes are `b0 b1` is `b0 * 256 + b1`; and when the parser
fails or neither header is present no descriptor is built (so the policy has
nothing to be asked about) and `ProcessPacket` returns false with the engine,
metrics included, unchanged. -/
theorem classification_follows_transport_header :
    (∀ (ip : WinDivertIpHdr) (tcp : WinDivertTcpHdr) (udp : Option WinDivertUdpHdr)
        (payload : Option (List Nat)) (len tick : Nat),
      ∃ info, classify (some ⟨ip, some tcp, udp, payload, len⟩) tick = some info ∧
        info.protocol = "tcp".toList ∧ info.sourcePort = ntohs tcp.SrcPort ∧
        info.destPort = ntohs tcp.DstPort) ∧
    (∀ (ip : WinDivertIpHdr) (udp : WinDivertUdpHdr) (payload : Option (List Nat))
        (len tick : Nat),
      ∃ info, classify (some ⟨ip, none, some udp, payload, len⟩) tick = some info ∧
        info.protocol = "udp".toList ∧ info.sourcePort = ntohs udp.SrcPort ∧
        info.destPort = ntohs udp.DstPort) ∧
    (∀ b0 b1 : Nat, b0 < 256 → b1 < 256 → ntohs (loadUInt16 b0 b1) = b0 * 256 + b1) ∧
    (∀ (self : TrafficCapture) (parsePacket : List Nat → Nat → Option ParsedPacket)
        (tick : Nat) (packet : List Nat) (packetLen : Nat),
      (parsePacket packet packetLen = none ∨
        ∃ hdrs, parsePacket packet packetLen = some hdrs ∧ hdrs.tcpHeader = none ∧
          hdrs.udpHeader = none) →
      classify (parsePacket packet packetLen) tick = none ∧
      self.ProcessPacket parsePacket tick packet packetLen = (false, self)) := by
  refine ⟨?_, ?_, ntohs_loadUInt16, ?_⟩
  · intro ip tcp udp payload len tick
    exact ⟨_, rfl, rfl, rfl, rfl⟩
  · intro ip udp payload len tick
    exact ⟨_, rfl, rfl, rfl, rfl⟩
  · intro self parsePacket tick packet packetLen h
    have hnone : classify (parsePacket packet packetLen) tick = none :=
      (classify_eq_none_iff _ _).2 h
    refine ⟨hnone, ?_⟩
    simp [TrafficCapture.ProcessPacket, hnone]

/-- C4, exercised: a TCP segment to port 443 is classified `tcp` with
destination port 443, and an ICMP packet and an unparsable one make
`ProcessPacket` return false without touching the engine. -/
theorem https_segment_and_icmp_classified :
    (∃ info, classify (some httpsSegment) 5 = some info ∧ info.protocol = "tcp".toList ∧
      info.sourcePort = ntohs (loadUInt16 195 80) ∧ info.destPort = ntohs (loadUInt16 1 187)) ∧
    ntohs (loadUInt16 1 187) = 443 ∧
    (classify (replayParser [3, 0] 2) 5 = none ∧
      (runningEngine 0).ProcessPacket replayParser 5 [3, 0] 2 = (false, runningEngine 0)) ∧
    (classify (replayParser [9] 1) 5 = none ∧
      (runningEngine 0).ProcessPacket replayParser 5 [9] 1 = (false, runningEngine 0)) :=
  ⟨classification_follows_transport_header.1 _ _ _ _ _ 5,
   classification_follows_transport_header.2.2.1 1 187 (by decide) (by decide),
   classification_follows_transport_header.2.2.2 (runningEngine 0) replayParser 5 [3, 0] 2
     (Or.inr ⟨icmpEcho, rfl, rfl, rfl⟩),
   classification_follows_transport_header.2.2.2 (runningEngine 0) replayParser 5 [9] 1
     (Or.inl rfl)⟩

/-! ### Filter construction -/

theorem digitChar_mem_decimalDigits : ∀ m, m < 10 → Nat.digitChar m ∈ decimalDigits := by
  decide

theorem toDigitsCore_mem (fuel : Nat) :
    ∀ (n : Nat) (ds : List Char) (c : Char),
      c ∈ Nat.toDigitsCore 10 fuel n ds → c ∈ ds ∨ c ∈ decimalDigits := by
  induction fuel with
  | zero => intro n ds c h; exact Or.inl h
  | succ fuel ih =>
    intro n ds c h
    have hd : Nat.digitChar (n % 10) ∈ decimalDigits :=
      digitChar_mem_decimalDigits _ (Nat.mod_lt _ (by decide))
    simp only [Nat.toDigitsCore] at h
    split at h
    · rcases List.mem_cons.1 h with h | h
      · exact Or.inr (h ▸ hd)
      · exact Or.inl h
    · rcases ih _ _ _ h with h | h
      · rcases List.mem_cons.1 h with h | h
        · exact Or.inr (h ▸ hd)
        · exact Or.inl h
      · exact Or.inr h

theorem toDigitsCore_ne_nil (fuel : Nat) :
    ∀ (n : Nat) (ds : List Char), ds ≠ [] → Nat.toDigitsCore 10 fuel n ds ≠ [] := by
  induction fuel with
  | zero => intro n ds h; exact h
  | succ fuel ih =>
    intro n ds _
    simp only [Nat.toDigitsCore]
    split
    · simp
    · exact ih _ _ (by simp)

theorem decimal_mem (n : Nat) (c : Char) (h : c ∈ decimal n) : c ∈ decimalDigits := by
  rcases toDigitsCore_mem _ _ _ _ h with h | h
  · simp at h
  · exact h

theorem decimal_ne_nil (n : Nat) : decimal n ≠ [] := by
  unfold decimal Nat.toDigits
  simp only [Nat.toDigitsCore]
  split
  · simp
  · exact toDigitsCore_ne_nil _ _ _ (by simp)

theorem occurrences_append_of_not_mem (h : Char) (pt : CppString) (xs ys : CppString)
    (hx : h ∉ xs) : occurrences (h :: pt) (xs ++ ys) = occurrences (h :: pt) ys := by
  induction xs with
  | nil => rfl
  | cons x xs ih =>
    have hne : h ≠ x := fun e => hx (e ▸ List.mem_cons_self _ _)
    have hx' : h ∉ xs := fun e => hx (List.mem_cons_of_mem _ e)
    simp [occurrences, List.isPrefixOf, hne, ih hx']


theorem filterLoop_of_pos (ids : List Nat) :
    ∀ (i : Nat) (stream : CppString), 0 < i →
      filterLoop ids i stream =
        stream ++ (ids.map fun pid => " or ".toList ++ processIdTerm pid).flatten := by
  induction ids with
  | nil => intro i stream _; simp [filterLoop]
  | cons pid rest ih =>
    intro i stream hi
    simp [filterLoop, hi, ih (i + 1) _ (Nat.succ_pos i), processIdTerm]

theorem filterLoop_zero_cons (pid : Nat) (rest : List Nat) (stream : CppString) :
    filterLoop (pid :: rest) 0 stream =
      stream ++ processIdTerm pid ++
        (rest.map fun pid => " or ".toList ++ processIdTerm pid).flatten := by
  simp [filterLoop, filterLoop_of_pos rest 1 _ Nat.one_pos, processIdTerm]

theorem intercalate_cons (sep : CppString) (x : CppString) (xs : List CppString) :
    sep.intercalate (x :: xs) = x ++ (xs.map fun y => sep ++ y).flatten := by
  induction xs generalizing x with
  | nil => simp [List.intercalate]
  | cons y ys ih =>
    have := ih y
    simp only [List.intercalate] at this ⊢
    simp [List.intersperse_cons_cons, this]

theorem buildFilter_eq_intercalate (ids : List Nat) :
    buildFilter ids =
      "outbound and (".toList ++ " or ".toList.intercalate (ids.map processIdTerm) ++
        ")".toList := by
  cases ids with
  | nil => simp [buildFilter, filterLoop, List.intercalate]
  | cons pid rest =>
    rw [buildFilter, filterLoop_zero_cons, List.map_cons, intercalate_cons, List.map_map]
    simp [Function.comp_def]

theorem occurrences_or_term (pid : Nat) (tail : CppString) :
    occurrences " or ".toList (processIdTerm pid ++ tail) = occurrences " or ".toList tail := by
  have hne := decimal_ne_nil pid
  have hmem := decimal_mem pid
  unfold processIdTerm
  cases hd : decimal pid with
  | nil => exact absurd hd hne
  | cons d ds =>
    rw [hd] at hmem
    have hd0 : d ≠ 'o' := by
      rintro rfl
      exact absurd (hmem _ (List.mem_cons_self _ _)) (by decide)
    have hsp : ' ' ∉ d :: ds := fun h => absurd (hmem _ h) (by decide)
    have := occurrences_append_of_not_mem ' ' ['o', 'r', ' '] (d :: ds) tail hsp
    simp [occurrences, List.isPrefixOf, hd0.symm] at this ⊢
    exact this

theorem occurrences_or_flatten (rest : List Nat) (tail : CppString) :
    occurrences " or ".toList
        ((rest.map fun pid => " or ".toList ++ processIdTerm pid).flatten ++ tail) =
      rest.length + occurrences " or ".toList tail := by
  induction rest with
  | nil => simp
  | cons pid rest ih =>
    have h := occurrences_or_term pid
      ((rest.map fun pid => " or ".toList ++ processIdTerm pid).flatten ++ tail)
    rw [ih] at h
    simp [occurrences, List.isPrefixOf] at h ⊢
    omega

theorem occurrences_term_term (pid : Nat) (tail : CppString) :
    occurrences "processId == ".toList (processIdTerm pid ++ tail) =
      1 + occurrences "processId == ".toList tail := by
  have hp : 'p' ∉ decimal pid := fun h => absurd (decimal_mem pid _ h) (by decide)
  have := occurrences_append_of_not_mem 'p' "rocessId == ".toList (decimal pid) tail hp
  unfold processIdTerm
  simp [occurrences, List.isPrefixOf] at this ⊢
  exact this

theorem occurrences_term_flatten (rest : List Nat) (tail : CppString) :
    occurrences "processId == ".toList
        ((rest.map fun pid => " or ".toList ++ processIdTerm pid).flatten ++ tail) =
      rest.length + occurrences "processId == ".toList tail := by
  induction rest with
  | nil => simp
  | cons pid rest ih =>
    have h := occurrences_term_term pid
      ((rest.map fun pid => " or ".toList ++ processIdTerm pid).flatten ++ tail)
    rw [ih] at h
    simp [occurrences, List.isPrefixOf] at h ⊢
    omega

/-- C5. For a non-empty list of process ids the filter is `outbound and (`, the
terms `processId == p` (decimal) in the order of the list joined by ` or `, and
`)`; it holds one term per id, that many occurrences of `processId == ` and one
occurrence of ` or ` less. -/
theorem filter_lists_every_process (ids : List Nat) (h : ids ≠ []) :
    buildFilter ids =
      "outbound and (".toList ++
        " or ".toList.intercalate (ids.map fun pid => "processId == ".toList ++ decimal pid) ++
        ")".toList ∧
    (ids.map fun pid => "processId == ".toList ++ decimal pid).length = ids.length ∧
    occurrences "processId == ".toList (buildFilter ids) = ids.length ∧
    occurrences " or ".toList (buildFilter ids) + 1 = ids.length := by
  refine ⟨buildFilter_eq_intercalate ids, by simp, ?_, ?_⟩
  · cases ids with
    | nil => exact absurd rfl h
    | cons pid rest =>
      rw [buildFilter, filterLoop_zero_cons]
      have h1 := occurrences_term_term pid
        ((rest.map fun pid => " or ".toList ++ processIdTerm pid).flatten ++ ")".toList)
      rw [occurrences_term_flatten] at h1
      simp [occurrences, List.isPrefixOf] at h1 ⊢
      omega
  · cases ids with
    | nil => exact absurd rfl h
    | cons pid rest =>
      rw [buildFilter, filterLoop_zero_cons]
      have h1 := occurrences_or_term pid
        ((rest.map fun pid => " or ".toList ++ processIdTerm pid).flatten ++ ")".toList)
      rw [occurrences_or_flatten] at h1
      simp [occurrences, List.isPrefixOf] at h1 ⊢
      omega

/-- C5, exercised on the ids 4312 and 977. -/
theorem two_process_filter :
    [4312, 977] ≠ [] ∧
    buildFilter [4312, 977] = "outbound and (processId == 4312 or processId == 977)".toList ∧
    occurrences "processId == ".toList (buildFilter [4312, 977]) = 2 ∧
    occurrences " or ".toList (buildFilter [4312, 977]) + 1 = 2 :=
  ⟨by decide, (filter_lists_every_process [4312, 977] (by decide)).1,
    (filter_lists_every_process [4312, 977] (by decide)).2.2⟩

/-! ### Process resolution -/

theorem findSubstring_iff (needle haystack : CppString) :
    findSubstring needle haystack = true ↔ needle <:+: haystack := by
  induction haystack with
  | nil => simp [findSubstring]
  | cons c rest ih => simp [findSubstring, ih, List.infix_cons_iff]

theorem keywordLoop_iff (processName : CppString) (keywords : List CppString) :
    keywordLoop processName keywords = true ↔
      ∃ keyword ∈ keywords, toLowerString keyword <:+: processName := by
  induction keywords with
  | nil => simp [keywordLoop]
  | cons keyword rest ih =>
    by_cases h : findSubstring (toLowerString keyword) processName = true
    · simp [keywordLoop, h, (findSubstring_iff _ _).1 h]
    · have h' : ¬ toLowerString keyword <:+: processName := fun e =>
        h ((findSubstring_iff _ _).2 e)
      simp [keywordLoop, h, h', ih]

theorem processLoop_eq (gameConfig : GameProcess) (entries : List ProcessEntry) :
    ∀ processIds : List Nat,
      processLoop gameConfig entries processIds =
        processIds ++ resolveSpec gameConfig entries := by
  induction entries with
  | nil => intro processIds; simp [processLoop, resolveSpec]
  | cons pe32 rest ih =>
    intro processIds
    by_cases h : keywordLoop (toLowerString pe32.szExeFile) gameConfig.keywords = true
    · have h' := (keywordLoop_iff _ _).1 h
      simp only [processLoop, h, if_true, ih]
      simp [resolveSpec, List.filter_cons, h']
    · have h' : ¬ ∃ keyword ∈ gameConfig.keywords,
          toLowerString keyword <:+: toLowerString pe32.szExeFile := fun e =>
        h ((keywordLoop_iff _ _).2 e)
      simp only [processLoop, h, ih]
      simp [resolveSpec, List.filter_cons, h']

theorem resolveSpec_length_le (target : GameProcess) (entries : List ProcessEntry) :
    (resolveSpec target entries).length ≤ entries.length := by
  unfold resolveSpec
  rw [List.length_map]
  exact List.length_filter_le _ _

theorem FindGameProcesses_length_le (db : List GameProcess) (gameId : CppString)
    (snapshot : Option (List ProcessEntry)) (entries : List ProcessEntry)
    (h : snapshot = some entries) :
    (FindGameProcesses db gameId snapshot).length ≤ entries.length := by
  subst h
  unfold FindGameProcesses
  cases findGameConfig gameId db with
  | none => simp
  | some gameConfig =>
    simp only [processLoop_eq, List.nil_append]
    exact resolveSpec_length_le _ _

/-- C9. Over the enumerated processes `entries`: with no database entry of id
`gameId` the result is empty; otherwise, for the first entry `target` with that
id, the result is, in enumeration order and once per enumerated process, the ids
of the processes whose lowered image name contains a lowered keyword of `target`
as a substring. So when process ids are distinct no id of a process that matches
no keyword is returned, and the result is never longer than the enumeration. -/
theorem resolver_returns_matching_processes (db : List GameProcess) (gameId : CppString)
    (entries : List ProcessEntry) :
    ((∀ game ∈ db, game.processName ≠ gameId) →
      FindGameProcesses db gameId (some entries) = []) ∧
    (∀ target, db.find? (fun game => decide (game.processName = gameId)) = some target →
      FindGameProcesses db gameId (some entries) =
        (entries.filter fun pe =>
          decide (∃ keyword ∈ target.keywords,
            toLowerString keyword <:+: toLowerString pe.szExeFile)).map
          ProcessEntry.th32ProcessID ∧
      FindGameProcesses db gameId (some entries) = resolveSpec target entries ∧
      ((entries.map ProcessEntry.th32ProcessID).Nodup →
        ∀ pe ∈ entries,
          (¬ ∃ keyword ∈ target.keywords,
            toLowerString keyword <:+: toLowerString pe.szExeFile) →
          pe.th32ProcessID ∉ FindGameProcesses db gameId (some entries))) ∧
    (FindGameProcesses db gameId (some entries)).length ≤ entries.length := by
  refine ⟨?_, ?_, FindGameProcesses_length_le db gameId _ entries rfl⟩
  · intro hno
    have : findGameConfig gameId db = none := by
      rw [findGameConfig_eq_find, List.find?_eq_none]
      intro game hg
      simpa using hno game hg
    simp [FindGameProcesses, this]
  · intro target hfirst
    have hcfg : findGameConfig gameId db = some target := by
      rw [findGameConfig_eq_find, hfirst]
    have heq : FindGameProcesses db gameId (some entries) = resolveSpec target entries := by
      simp [FindGameProcesses, hcfg, processLoop_eq]
    refine ⟨heq, heq, ?_⟩
    intro hnodup pe hpe hnomatch hin
    rw [heq] at hin
    obtain ⟨pe', hpe', hid⟩ := List.mem_map.1 hin
    have hmem := List.mem_filter.1 hpe'
    have : pe' = pe := List.inj_on_of_nodup_map hnodup hmem.1 hpe hid
    subst this
    exact hnomatch (by simpa using hmem.2)

/-- C9, exercised: with the `valorant` entry, of the processes `System` (4) and
`VALORANT.exe` (4312) only 4312 is returned; an unknown id returns nothing. -/
theorem valorant_process_is_resolved :
    FindGameProcesses valorantDatabase "fortnite".toList sampleSnapshot = [] ∧
    FindGameProcesses valorantDatabase "valorant".toList sampleSnapshot = [4312] ∧
    (4 : Nat) ∉ FindGameProcesses valorantDatabase "valorant".toList sampleSnapshot :=
  ⟨(resolver_returns_matching_processes valorantDatabase "fortnite".toList sampleProcesses).1
     (by decide),
   ((resolver_returns_matching_processes valorantDatabase "valorant".toList sampleProcesses).2.1
      valorantEntry (by decide)).1,
   ((resolver_returns_matching_processes valorantDatabase "valorant".toList sampleProcesses).2.1
      valorantEntry (by decide)).2.2 (by decide)
      { th32ProcessID := 4, szExeFile := "System".toList } (by decide) (by decide)⟩

/-! ### Lifecycle -/

theorem ProcessPacket_cases (self : TrafficCapture)
    (parsePacket : List Nat → Nat → Option ParsedPacket) (tick : Nat) (packet : List Nat)
    (packetLen : Nat) :
    ((classify (parsePacket packet packetLen) tick = none ∨
        ∃ info, classify (parsePacket packet packetLen) tick = some info ∧
          ShouldRedirectPacket self.m_gameDatabase self.m_currentGameId info = false) ∧
      self.ProcessPacket parsePacket tick packet packetLen = (false, self)) ∨
    ((∃ info, classify (parsePacket packet packetLen) tick = some info ∧
        ShouldRedirectPacket self.m_gameDatabase self.m_currentGameId info = true) ∧
      self.ProcessPacket parsePacket tick packet packetLen =
        (true, { self with m_metrics :=
          { self.m_metrics with
            totalPackets := (self.m_metrics.totalPackets + 1) % 2 ^ 64 } })) := by
  unfold TrafficCapture.ProcessPacket
  cases hc : classify (parsePacket packet packetLen) tick with
  | none => simp
  | some info =>
    cases hs : ShouldRedirectPacket self.m_gameDatabase self.m_currentGameId info with
    | false => simp [hs]
    | true => simp [hs, TrafficCapture.RedirectToProxy]

theorem captureIteration_state (self : TrafficCapture)
    (parsePacket : List Nat → Nat → Option ParsedPacket) (tick : Nat) (recv : RecvResult) :
    (self.captureIteration parsePacket tick recv [] []).2.1 = self ∨
    (self.captureIteration parsePacket tick recv [] []).2.1 =
      { self with m_metrics :=
        { self.m_metrics with totalPackets := (self.m_metrics.totalPackets + 1) % 2 ^ 64 } } := by
  unfold TrafficCapture.captureIteration
  split
  · exact Or.inl rfl
  · cases recv with
    | failed error =>
      simp only [TrafficCapture.overlap]
      split
      · exact Or.inl rfl
      · exact Or.inl rfl
    | received packet packetLen addr =>
      rcases ProcessPacket_cases self parsePacket tick packet packetLen with ⟨_, h⟩ | ⟨_, h⟩
      · simp [TrafficCapture.overlap, h]
      · simp [TrafficCapture.overlap, h]

/-- C6. With process resolution and the facility's open as environment results,
`StartCapture` returns true exactly when the engine is not capturing, the
resolver finds a process and the facility opens the filter built from the
resolved ids. On true the engine is capturing with the stop flag cleared; on
false from a non-capturing engine it is still not capturing. `WinDivertOpen` is
only ever called with the filter of a non-empty list, the resolved ids. -/
theorem start_succeeds_iff (self : TrafficCapture) (gameId : CppString) (config : TunnelConfig)
    (snapshot : Option (List ProcessEntry)) (kernelOpen : CppString → Option Nat) :
    ((self.StartCapture gameId config snapshot kernelOpen).1 = true ↔
      self.IsCapturing = false ∧
      FindGameProcesses self.m_gameDatabase gameId snapshot ≠ [] ∧
      kernelOpen (buildFilter (FindGameProcesses self.m_gameDatabase gameId snapshot)) ≠ none) ∧
    ((self.StartCapture gameId config snapshot kernelOpen).1 = true →
      (self.StartCapture gameId config snapshot kernelOpen).2.1.IsCapturing = true ∧
      (self.StartCapture gameId config snapshot kernelOpen).2.1.m_shouldStop = false) ∧
    ((self.StartCapture gameId config snapshot kernelOpen).1 = false →
      self.IsCapturing = false →
      (self.StartCapture gameId config snapshot kernelOpen).2.1.IsCapturing = false) ∧
    (∀ filter, Effect.WinDivertOpen filter ∈
        (self.StartCapture gameId config snapshot kernelOpen).2.2 →
      FindGameProcesses self.m_gameDatabase gameId snapshot ≠ [] ∧
      filter = buildFilter (FindGameProcesses self.m_gameDatabase gameId snapshot) ∧
      (self.StartCapture gameId config snapshot kernelOpen).2.1.m_currentProcessIds =
        FindGameProcesses self.m_gameDatabase gameId snapshot) := by
  unfold TrafficCapture.StartCapture TrafficCapture.IsCapturing
  cases hcap : self.m_isCapturing
  · cases hids : FindGameProcesses self.m_gameDatabase gameId snapshot with
    | nil => simp [hids]
    | cons pid rest =>
      cases hopen : kernelOpen (buildFilter (pid :: rest)) with
      | none => simp [hids, hopen]
      | some handle => simp [hids, hopen]
  · simp

/-- C6, exercised on the end-to-end scenario: the start succeeds and yields the
running engine, after a single `WinDivertOpen` with the filter for process 4312. -/
theorem valorant_start_succeeds :
    (((TrafficCapture.construct 0 false).SetGameDatabase valorantDatabase).StartCapture
        "valorant".toList sampleConfig sampleSnapshot alwaysOpens).1 = true ∧
    (((TrafficCapture.construct 0 false).SetGameDatabase valorantDatabase).StartCapture
        "valorant".toList sampleConfig sampleSnapshot alwaysOpens).2.1.IsCapturing = true ∧
    (((TrafficCapture.construct 0 false).SetGameDatabase valorantDatabase).StartCapture
        "valorant".toList sampleConfig sampleSnapshot alwaysOpens).2.1.m_shouldStop = false :=
  ⟨(start_succeeds_iff ((TrafficCapture.construct 0 false).SetGameDatabase valorantDatabase)
      "valorant".toList sampleConfig sampleSnapshot alwaysOpens).1.2
      ⟨rfl, by decide, by decide⟩,
   (start_succeeds_iff ((TrafficCapture.construct 0 false).SetGameDatabase valorantDatabase)
      "valorant".toList sampleConfig sampleSnapshot alwaysOpens).2.1 (by decide)⟩

/-- C7. While the engine is capturing, `StartCapture` returns false, touches no
member and calls nothing; and no operation other than `StopCapture` changes the
current application id, the tunnel configuration, the resolved process ids, the
kernel handle or the capturing and stop flags. -/
theorem start_while_capturing_is_noop (self : TrafficCapture)
    (hcap : self.IsCapturing = true) :
    (∀ (gameId : CppString) (config : TunnelConfig) (snapshot : Option (List ProcessEntry))
        (kernelOpen : CppString → Option Nat),
      self.StartCapture gameId config snapshot kernelOpen = (false, self, [])) ∧
    (∀ op : Operation, op ≠ Operation.StopCapture →
      (self.perform op).m_currentGameId = self.m_currentGameId ∧
      (self.perform op).m_tunnelConfig = self.m_tunnelConfig ∧
      (self.perform op).m_currentProcessIds = self.m_currentProcessIds ∧
      (self.perform op).m_winDivertHandle = self.m_winDivertHandle ∧
      (self.perform op).m_isCapturing = self.m_isCapturing ∧
      (self.perform op).m_shouldStop = self.m_shouldStop) := by
  unfold TrafficCapture.IsCapturing at hcap
  have hstart : ∀ (gameId : CppString) (config : TunnelConfig)
      (snapshot : Option (List ProcessEntry)) (kernelOpen : CppString → Option Nat),
      self.StartCapture gameId config snapshot kernelOpen = (false, self, []) := by
    intro gameId config snapshot kernelOpen
    simp [TrafficCapture.StartCapture, hcap]
  refine ⟨hstart, ?_⟩
  intro op hop
  cases op with
  | StartCapture gameId config snapshot kernelOpen =>
    simp [TrafficCapture.perform, hstart]
  | StopCapture => exact absurd rfl hop
  | captureIteration parsePacket tick recv =>
    rcases captureIteration_state self parsePacket tick recv with h | h
    · simp [TrafficCapture.perform, h]
    · simp [TrafficCapture.perform, h]
  | _ => simp [TrafficCapture.perform, TrafficCapture.SetGameDatabase,
      TrafficCapture.SetLocalProxyPort]

/-- C7, exercised on the running engine of the scenario: a second start, for
another application and with a facility that would open, fails and changes
nothing. -/
theorem second_start_is_rejected :
    (runningEngine 3).IsCapturing = true ∧
    (runningEngine 3).StartCapture "fortnite".toList sampleConfig sampleSnapshot alwaysOpens =
      (false, runningEngine 3, []) ∧
    ((runningEngine 3).perform (Operation.SetGameDatabase [])).m_currentProcessIds = [4312] :=
  ⟨rfl,
   (start_while_capturing_is_noop (runningEngine 3) rfl).1 _ _ _ _,
   ((start_while_capturing_is_noop (runningEngine 3) rfl).2 (Operation.SetGameDatabase [])
      (fun h => Operation.noConfusion h)).2.2.1⟩

theorem StopCapture_spec (self : TrafficCapture) :
    self.StopCapture.1 = true ∧ self.StopCapture.2.1.m_isCapturing = false ∧
    (self.m_isCapturing = true → self.StopCapture.2.1.m_winDivertHandle = none) ∧
    (self.m_isCapturing = false → self.StopCapture = (true, self, [])) := by
  unfold TrafficCapture.StopCapture
  cases h : self.m_isCapturing <;> simp [h]

theorem handle_invalid_when_idle (self : TrafficCapture) (h : Reachable self) :
    self.m_isCapturing = false → self.m_winDivertHandle = none := by
  induction h with
  | construct nodePort enabled => intro _; rfl
  | perform self op _ _ ih =>
    cases op with
    | StartCapture gameId config snapshot kernelOpen =>
      simp only [TrafficCapture.perform, TrafficCapture.StartCapture]
      cases hcap : self.m_isCapturing
      · cases hids : FindGameProcesses self.m_gameDatabase gameId snapshot with
        | nil => simpa [hids] using ih hcap
        | cons pid rest =>
          cases hopen : kernelOpen (buildFilter (pid :: rest)) with
          | none => simp [hids, hopen]
          | some handle => simp [hids, hopen]
      · simp [hcap]
    | StopCapture =>
      intro _
      cases hcap : self.m_isCapturing
      · rw [TrafficCapture.perform, (StopCapture_spec self).2.2.2 hcap]
        exact ih hcap
      · exact (StopCapture_spec self).2.2.1 hcap
    | captureIteration parsePacket tick recv =>
      rcases captureIteration_state self parsePacket tick recv with h | h
      · simpa [TrafficCapture.perform, h] using ih
      · simpa [TrafficCapture.perform, h] using ih
    | _ => simpa [TrafficCapture.perform, TrafficCapture.SetGameDatabase,
        TrafficCapture.SetLocalProxyPort] using ih

/-- C8. From every state an engine can be in, capturing or not, `StopCapture`
returns true and leaves the engine not capturing with an invalid kernel handle;
a second `StopCapture` right after returns true again, calls nothing and leaves
the engine exactly as the first call left it. -/
theorem stop_is_idempotent (self : TrafficCapture) (h : Reachable self) :
    self.StopCapture.1 = true ∧
    self.StopCapture.2.1.IsCapturing = false ∧
    self.StopCapture.2.1.m_winDivertHandle = none ∧
    self.StopCapture.2.1.StopCapture.1 = true ∧
    self.StopCapture.2.1.StopCapture.2.1 = self.StopCapture.2.1 ∧
    self.StopCapture.2.1.StopCapture.2.2 = [] := by
  have h1 := StopCapture_spec self
  have h2 := (StopCapture_spec self.StopCapture.2.1).2.2.2 h1.2.1
  refine ⟨h1.1, h1.2.1, ?_, ?_, ?_, ?_⟩
  · cases hcap : self.m_isCapturing
    · rw [h1.2.2.2 hcap]
      exact handle_invalid_when_idle self h hcap
    · exact h1.2.2.1 hcap
  · rw [h2]
  · rw [h2]
  · rw [h2]

theorem runningEngine_zero_eq :
    runningEngine 0 =
      (((TrafficCapture.construct 0 false).perform
          (Operation.SetGameDatabase valorantDatabase)).perform
        (Operation.StartCapture "valorant".toList sampleConfig sampleSnapshot alwaysOpens)) := by
  decide

theorem runningEngine_receive (n : Nat) :
    (runningEngine n).captureIteration replayParser 0 (RecvResult.received [1, 0, 0] 3 [1])
        [] [] =
      (LoopControl.next, runningEngine ((n + 1) % 2 ^ 64), []) := by
  have hs : ShouldRedirectPacket valorantDatabase "valorant".toList
      ((classify (replayParser [1, 0, 0] 3) 0).get (by decide)) = true := by decide
  rcases ProcessPacket_cases (runningEngine n) replayParser 0 [1, 0, 0] 3 with ⟨h, _⟩ | ⟨_, h⟩
  · exfalso
    rcases h with h | ⟨info, h1, h2⟩
    · exact absurd h (by decide)
    · have : info = (classify (replayParser [1, 0, 0] 3) 0).get (by decide) := by
        simp [h1]
      subst this
      rw [show (runningEngine n).m_gameDatabase = valorantDatabase from rfl,
        show (runningEngine n).m_currentGameId = "valorant".toList from rfl, hs] at h2
      exact Bool.noConfusion h2
  · simp only [TrafficCapture.captureIteration, TrafficCapture.overlap, h]
    simp [runningEngine]

theorem reachable_runningEngine (n : Nat) (h : n < 2 ^ 64) : Reachable (runningEngine n) := by
  induction n with
  | zero =>
    rw [runningEngine_zero_eq]
    exact Reachable.perform _ _ (Reachable.perform _ _ (Reachable.construct 0 false) trivial)
      trivial
  | succ n ih =>
    have hstep : (runningEngine n).perform receiveUdpTo7001 = runningEngine (n + 1) := by
      simp only [receiveUdpTo7001, TrafficCapture.perform, runningEngine_receive]
      rw [Nat.mod_eq_of_lt h]
    rw [← hstep]
    exact Reachable.perform _ _ (ih (by omega)) rfl

/-- C8, exercised on the running engine of the scenario and on a freshly
constructed one. -/
theorem stop_twice_after_start :
    Reachable (runningEngine 0) ∧
    (runningEngine 0).StopCapture.1 = true ∧
    (runningEngine 0).StopCapture.2.1.IsCapturing = false ∧
    (runningEngine 0).StopCapture.2.1.m_winDivertHandle = none ∧
    (runningEngine 0).StopCapture.2.1.StopCapture.1 = true ∧
    (runningEngine 0).StopCapture.2.1.StopCapture.2.1 = (runningEngine 0).StopCapture.2.1 ∧
    (runningEngine 0).StopCapture.2.1.StopCapture.2.2 = [] :=
  ⟨reachable_runningEngine 0 (by decide),
   stop_is_idempotent (runningEngine 0) (reachable_runningEngine 0 (by decide))⟩

/-! ### Capture loop and metrics -/

theorem perform_metrics (self : TrafficCapture) (op : Operation) :
    (self.perform op).m_metrics = self.m_metrics ∨
    (self.perform op).m_metrics =
      { self.m_metrics with totalPackets := (self.m_metrics.totalPackets + 1) % 2 ^ 64 } := by
  cases op with
  | StartCapture gameId config snapshot kernelOpen =>
    left
    simp only [TrafficCapture.perform, TrafficCapture.StartCapture]
    cases hcap : self.m_isCapturing
    · cases hids : FindGameProcesses self.m_gameDatabase gameId snapshot with
      | nil => simp [hids]
      | cons pid rest =>
        cases hopen : kernelOpen (buildFilter (pid :: rest)) with
        | none => simp [hids, hopen]
        | some handle => simp [hids, hopen]
    · simp
  | StopCapture =>
    left
    simp only [TrafficCapture.perform, TrafficCapture.StopCapture]
    cases hcap : self.m_isCapturing <;> simp
  | captureIteration parsePacket tick recv =>
    rcases captureIteration_state self parsePacket tick recv with h | h
    · exact Or.inl (by simp [TrafficCapture.perform, h])
    · exact Or.inr (by simp [TrafficCapture.perform, h])
  | _ => exact Or.inl rfl

/-- C10 as stated fails: the engine of the scenario with `totalPackets` at
`2 ^ 64 - 1` is reached from the constructor, the worker's loop can run there,
and the pass that redirects one more datagram takes `totalPackets` from
18446744073709551615 down to 0. -/
theorem total_packets_wraps_to_zero :
    Reachable (runningEngine (2 ^ 64 - 1)) ∧
    (runningEngine (2 ^ 64 - 1)).enabled receiveUdpTo7001 ∧
    (runningEngine (2 ^ 64 - 1)).GetMetrics.totalPackets = 18446744073709551615 ∧
    ((runningEngine (2 ^ 64 - 1)).perform receiveUdpTo7001).GetMetrics.totalPackets = 0 ∧
    ((runningEngine (2 ^ 64 - 1)).perform receiveUdpTo7001).GetMetrics.totalPackets <
      (runningEngine (2 ^ 64 - 1)).GetMetrics.totalPackets := by
  have h : ((runningEngine (2 ^ 64 - 1)).perform receiveUdpTo7001).GetMetrics.totalPackets = 0 := by
    simp only [receiveUdpTo7001, TrafficCapture.perform, runningEngine_receive]
    rfl
  refine ⟨reachable_runningEngine _ (by decide), rfl, rfl, h, ?_⟩
  rw [h]
  decide

/-- C10, amended. The constructor zeroes the metrics. Every operation, by the
owner or by the worker's loop, leaves the metrics as they were or replaces
`totalPackets` by `(totalPackets + 1) % 2 ^ 64`, nothing else; hence, when
`totalPackets` is below `2 ^ 64 - 1` before the operation, each of the five
fields is greater than or equal to its previous value. -/
theorem metrics_nondecreasing_below_wrap (self : TrafficCapture) (op : Operation) :
    (∀ nodePort enabled, (TrafficCapture.construct nodePort enabled).GetMetrics =
      { avgPing := 0, jitter := 0, packetLoss := 0, totalPackets := 0, droppedPackets := 0 }) ∧
    ((self.perform op).GetMetrics = self.GetMetrics ∨
      (self.perform op).GetMetrics =
        { self.GetMetrics with totalPackets := (self.GetMetrics.totalPackets + 1) % 2 ^ 64 }) ∧
    (self.GetMetrics.totalPackets < 2 ^ 64 - 1 →
      self.GetMetrics.avgPing ≤ (self.perform op).GetMetrics.avgPing ∧
      self.GetMetrics.jitter ≤ (self.perform op).GetMetrics.jitter ∧
      self.GetMetrics.packetLoss ≤ (self.perform op).GetMetrics.packetLoss ∧
      self.GetMetrics.totalPackets ≤ (self.perform op).GetMetrics.totalPackets ∧
      self.GetMetrics.droppedPackets ≤ (self.perform op).GetMetrics.droppedPackets) := by
  unfold TrafficCapture.GetMetrics
  refine ⟨fun _ _ => rfl, perform_metrics self op, ?_⟩
  intro hlt
  rcases perform_metrics self op with h | h
  · rw [h]
    exact ⟨le_refl _, le_refl _, le_refl _, le_refl _, le_refl _⟩
  · rw [h]
    refine ⟨le_refl _, le_refl _, le_refl _, ?_, le_refl _⟩
    show self.m_metrics.totalPackets ≤ (self.m_metrics.totalPackets + 1) % 2 ^ 64
    rw [Nat.mod_eq_of_lt (by omega)]
    omega

/-- C10 amended, exercised: from 5 redirected packets the next redirect gives 6,
and a `StopCapture` leaves the metrics alone. -/
theorem sixth_packet_is_counted :
    (runningEngine 5).GetMetrics.totalPackets < 2 ^ 64 - 1 ∧
    (runningEngine 5).GetMetrics.totalPackets ≤
      ((runningEngine 5).perform receiveUdpTo7001).GetMetrics.totalPackets ∧
    ((runningEngine 5).perform receiveUdpTo7001).GetMetrics.totalPackets = 6 ∧
    (runningEngine 5).GetMetrics.totalPackets ≤
      ((runningEngine 5).perform Operation.StopCapture).GetMetrics.totalPackets :=
  ⟨by decide,
   ((metrics_nondecreasing_below_wrap (runningEngine 5) receiveUdpTo7001).2.2
      (by decide)).2.2.2.1,
   by decide,
   ((metrics_nondecreasing_below_wrap (runningEngine 5) Operation.StopCapture).2.2
      (by decide)).2.2.2.1⟩

theorem classify_some_iff (parsed : Option ParsedPacket) (tick : Nat) (info : PacketInfo) :
    classify parsed tick = some info ↔
      ∃ hdrs, parsed = some hdrs ∧ (hdrs.tcpHeader ≠ none ∨ hdrs.udpHeader ≠ none) ∧
        classify (some hdrs) tick = some info := by
  constructor
  · intro h
    cases parsed with
    | none => simp [classify] at h
    | some hdrs =>
      refine ⟨hdrs, rfl, ?_, h⟩
      by_contra hcon
      have hnone := (classify_eq_none_iff (some hdrs) tick).2
        (Or.inr ⟨hdrs, rfl, by tauto, by tauto⟩)
      rw [hnone] at h
      exact Option.noConfusion h
  · rintro ⟨hdrs, rfl, _, h⟩
    exact h

theorem act_spec (self : TrafficCapture) (action : OwnerAction) :
    (self.act action).1.m_metrics = self.m_metrics ∧
    (self.act action).1.m_currentGameId = self.m_currentGameId ∧
    (∀ effect ∈ (self.act action).2, ∃ handle, effect = Effect.WinDivertClose handle) ∧
    (action ≠ OwnerAction.StopCaptureToJoin →
      (self.act action).1.m_winDivertHandle = self.m_winDivertHandle ∧
      (self.act action).2 = []) := by
  cases action with
  | SetGameDatabase games => simp [TrafficCapture.act, TrafficCapture.SetGameDatabase]
  | SetLocalProxyPort port => simp [TrafficCapture.act, TrafficCapture.SetLocalProxyPort]
  | StopCaptureToJoin =>
    simp only [TrafficCapture.act, TrafficCapture.StopCaptureToJoin]
    cases self.m_isCapturing
    · simp
    · cases self.m_winDivertHandle <;> simp

theorem overlap_spec (actions : List OwnerAction) :
    ∀ self : TrafficCapture,
      (self.overlap actions).1.m_metrics = self.m_metrics ∧
      (self.overlap actions).1.m_currentGameId = self.m_currentGameId ∧
      (∀ effect ∈ (self.overlap actions).2, ∃ handle, effect = Effect.WinDivertClose handle) ∧
      (OwnerAction.StopCaptureToJoin ∉ actions →
        (self.overlap actions).1.m_winDivertHandle = self.m_winDivertHandle ∧
        (self.overlap actions).2 = []) := by
  induction actions with
  | nil => intro self; simp [TrafficCapture.overlap]
  | cons action rest ih =>
    intro self
    obtain ⟨a1, a2, a3, a4⟩ := act_spec self action
    obtain ⟨r1, r2, r3, r4⟩ := ih (self.act action).1
    simp only [TrafficCapture.overlap]
    refine ⟨r1.trans a1, r2.trans a2, ?_, ?_⟩
    · intro effect heff
      rcases List.mem_append.1 heff with h | h
      · exact a3 effect h
      · exact r3 effect h
    · intro hno
      have hne : action ≠ OwnerAction.StopCaptureToJoin := fun e =>
        hno (e ▸ List.mem_cons_self _ _)
      have hrest : OwnerAction.StopCaptureToJoin ∉ rest := fun e =>
        hno (List.mem_cons_of_mem _ e)
      refine ⟨((r4 hrest).1).trans (a4 hne).1, ?_⟩
      show (self.act action).2 ++ ((self.act action).1.overlap rest).2 = []
      rw [(a4 hne).2, (r4 hrest).2]
      rfl

theorem captureIteration_metrics (self : TrafficCapture)
    (parsePacket : List Nat → Nat → Option ParsedPacket) (tick : Nat) (recv : RecvResult)
    (whileReceiving beforeSend : List OwnerAction) :
    (self.captureIteration parsePacket tick recv whileReceiving beforeSend).2.1.m_metrics =
      self.m_metrics ∨
    (self.captureIteration parsePacket tick recv whileReceiving beforeSend).2.1.m_metrics =
      { self.m_metrics with totalPackets := (self.m_metrics.totalPackets + 1) % 2 ^ 64 } := by
  have m1 := (overlap_spec whileReceiving self).1
  have m2 := (overlap_spec beforeSend (self.overlap whileReceiving).1).1
  unfold TrafficCapture.captureIteration
  split
  · exact Or.inl rfl
  · cases recv with
    | failed error =>
      dsimp only
      split
      · exact Or.inl m1
      · exact Or.inl m1
    | received packet packetLen addr =>
      rcases ProcessPacket_cases (self.overlap whileReceiving).1 parsePacket tick packet
        packetLen with ⟨_, h⟩ | ⟨_, h⟩
      · left
        simp only [h]
        exact m2.trans m1
      · right
        simp only [h]
        simp [m1]

/-- C1 as stated fails, in two ways, both from the running engine of the
scenario, a state reached from the constructor. With `totalPackets` at
`2 ^ 64 - 1`, a received UDP datagram to port 7001 parses, carries a UDP header
and is accepted by the policy; it is not sent, and `totalPackets` goes from
18446744073709551615 to 0, which is no increase by 1. And when `StopCapture`
closes the handle after a TCP segment to port 9999 was received and refused by
the policy, the pass calls `WinDivertSend` on `INVALID_HANDLE_VALUE`: the packet
is not counted and no send on a valid handle is made. -/
theorem redirect_at_counter_maximum :
    (Reachable (runningEngine (2 ^ 64 - 1)) ∧
      (runningEngine (2 ^ 64 - 1)).m_shouldStop = false ∧
      (∃ hdrs info, replayParser [1, 0, 0] 3 = some hdrs ∧
        (hdrs.tcpHeader ≠ none ∨ hdrs.udpHeader ≠ none) ∧ classify (some hdrs) 0 = some info ∧
        ShouldRedirectPacket (runningEngine (2 ^ 64 - 1)).m_gameDatabase
          (runningEngine (2 ^ 64 - 1)).m_currentGameId info = true) ∧
      (runningEngine (2 ^ 64 - 1)).m_metrics.totalPackets = 18446744073709551615 ∧
      ((runningEngine (2 ^ 64 - 1)).captureIteration replayParser 0
        (RecvResult.received [1, 0, 0] 3 [1]) [] []).2.1.m_metrics.totalPackets = 0 ∧
      ((runningEngine (2 ^ 64 - 1)).captureIteration replayParser 0
        (RecvResult.received [1, 0, 0] 3 [1]) [] []).2.1.m_metrics.totalPackets ≠
        (runningEngine (2 ^ 64 - 1)).m_metrics.totalPackets + 1) ∧
    (Reachable (runningEngine 0) ∧
      (runningEngine 0).m_shouldStop = false ∧
      (runningEngine 0).m_winDivertHandle = some 77 ∧
      replayParser [2, 5] 2 = some tcpTo9999 ∧
      (∃ info, classify (some tcpTo9999) 0 = some info ∧ info.destPort = 9999 ∧
        ShouldRedirectPacket (runningEngine 0).m_gameDatabase
          (runningEngine 0).m_currentGameId info = false) ∧
      ((runningEngine 0).captureIteration replayParser 0 (RecvResult.received [2, 5] 2 [1])
        [] [OwnerAction.StopCaptureToJoin]).2.2 =
        [Effect.WinDivertClose 77, Effect.WinDivertSend none [2, 5] 2 [1]] ∧
      ((runningEngine 0).captureIteration replayParser 0 (RecvResult.received [2, 5] 2 [1])
        [] [OwnerAction.StopCaptureToJoin]).2.1.m_metrics = (runningEngine 0).m_metrics ∧
      (∀ handle, Effect.WinDivertSend (some handle) [2, 5] 2 [1] ∉
        ((runningEngine 0).captureIteration replayParser 0 (RecvResult.received [2, 5] 2 [1])
          [] [OwnerAction.StopCaptureToJoin]).2.2)) := by
  have h : ((runningEngine (2 ^ 64 - 1)).captureIteration replayParser 0
      (RecvResult.received [1, 0, 0] 3 [1]) [] []).2.1.m_metrics.totalPackets = 0 := by
    rw [runningEngine_receive]
    rfl
  have hcalls : ((runningEngine 0).captureIteration replayParser 0
      (RecvResult.received [2, 5] 2 [1]) [] [OwnerAction.StopCaptureToJoin]).2.2 =
      [Effect.WinDivertClose 77, Effect.WinDivertSend none [2, 5] 2 [1]] := by
    decide
  refine ⟨⟨reachable_runningEngine _ (by decide), rfl, ?_, rfl, h, ?_⟩,
    reachable_runningEngine 0 (by decide), rfl, rfl, rfl, ?_, hcalls, by decide, ?_⟩
  · exact ⟨udpTo7001, (classify (some udpTo7001) 0).get (by decide), rfl,
      Or.inr (by decide), by decide, by decide⟩
  · rw [h]
    decide
  · exact ⟨(classify (some tcpTo9999) 0).get (by decide), by decide, by decide, by decide⟩
  · intro handle hmem
    rw [hcalls] at hmem
    simp at hmem

/-- C1, amended. A pass of the capture loop that receives a packet ends in one
of two ways. If the packet parses, carries a TCP or UDP header and the policy
accepts its descriptor, `totalPackets` becomes `(totalPackets + 1) % 2 ^ 64`,
which is `totalPackets + 1` unless the counter was at `2 ^ 64 - 1`, the worker
changes nothing else and sends nothing. Otherwise the metrics are unchanged and
the worker's one call is `WinDivertSend` of the received bytes, length and
address on the handle held at that moment; when no `StopCapture` overlaps the
pass this is the only call made and it goes to the handle the engine held at the
start of the pass, so the packet is re-injected. Here the engine read by the
policy is the one left by the owner's actions during the receive. -/
theorem every_packet_counted_or_reinjected (self : TrafficCapture)
    (parsePacket : List Nat → Nat → Option ParsedPacket) (tick : Nat) (packet : List Nat)
    (packetLen : Nat) (addr : WinDivertAddress) (whileReceiving beforeSend : List OwnerAction)
    (hrun : self.m_shouldStop = false) :
    ((∃ hdrs info, parsePacket packet packetLen = some hdrs ∧
        (hdrs.tcpHeader ≠ none ∨ hdrs.udpHeader ≠ none) ∧
        classify (some hdrs) tick = some info ∧
        ShouldRedirectPacket (self.overlap whileReceiving).1.m_gameDatabase
          self.m_currentGameId info = true) →
      self.captureIteration parsePacket tick (RecvResult.received packet packetLen addr)
          whileReceiving beforeSend =
        (LoopControl.next,
          { (self.overlap whileReceiving).1 with m_metrics :=
            { self.m_metrics with
              totalPackets := (self.m_metrics.totalPackets + 1) % 2 ^ 64 } },
          (self.overlap whileReceiving).2) ∧
      (∀ handle bytes len address,
        Effect.WinDivertSend handle bytes len address ∉ (self.overlap whileReceiving).2) ∧
      (self.m_metrics.totalPackets < 2 ^ 64 - 1 →
        (self.captureIteration parsePacket tick (RecvResult.received packet packetLen addr)
          whileReceiving beforeSend).2.1.m_metrics.totalPackets =
          self.m_metrics.totalPackets + 1)) ∧
    ((¬ ∃ hdrs info, parsePacket packet packetLen = some hdrs ∧
        (hdrs.tcpHeader ≠ none ∨ hdrs.udpHeader ≠ none) ∧
        classify (some hdrs) tick = some info ∧
        ShouldRedirectPacket (self.overlap whileReceiving).1.m_gameDatabase
          self.m_currentGameId info = true) →
      self.captureIteration parsePacket tick (RecvResult.received packet packetLen addr)
          whileReceiving beforeSend =
        (LoopControl.next, ((self.overlap whileReceiving).1.overlap beforeSend).1,
          (self.overlap whileReceiving).2 ++
            ((self.overlap whileReceiving).1.overlap beforeSend).2 ++
            [Effect.WinDivertSend
              ((self.overlap whileReceiving).1.overlap beforeSend).1.m_winDivertHandle
              packet packetLen addr]) ∧
      ((self.overlap whileReceiving).1.overlap beforeSend).1.m_metrics = self.m_metrics ∧
      (∀ effect ∈ (self.overlap whileReceiving).2 ++
          ((self.overlap whileReceiving).1.overlap beforeSend).2,
        ∃ handle, effect = Effect.WinDivertClose handle) ∧
      (OwnerAction.StopCaptureToJoin ∉ whileReceiving →
        OwnerAction.StopCaptureToJoin ∉ beforeSend →
        (self.captureIteration parsePacket tick (RecvResult.received packet packetLen addr)
          whileReceiving beforeSend).2.2 =
          [Effect.WinDivertSend self.m_winDivertHandle packet packetLen addr])) := by
  obtain ⟨m1, g1, e1, n1⟩ := overlap_spec whileReceiving self
  obtain ⟨m2, _, e2, n2⟩ := overlap_spec beforeSend (self.overlap whileReceiving).1
  have hacc : (∃ hdrs info, parsePacket packet packetLen = some hdrs ∧
        (hdrs.tcpHeader ≠ none ∨ hdrs.udpHeader ≠ none) ∧
        classify (some hdrs) tick = some info ∧
        ShouldRedirectPacket (self.overlap whileReceiving).1.m_gameDatabase
          self.m_currentGameId info = true) ↔
      ∃ info, classify (parsePacket packet packetLen) tick = some info ∧
        ShouldRedirectPacket (self.overlap whileReceiving).1.m_gameDatabase
          (self.overlap whileReceiving).1.m_currentGameId info = true := by
    rw [g1]
    constructor
    · rintro ⟨hdrs, info, h1, h2, h3, h4⟩
      exact ⟨info, (classify_some_iff _ _ _).2 ⟨hdrs, h1, h2, h3⟩, h4⟩
    · rintro ⟨info, h1, h4⟩
      obtain ⟨hdrs, h1', h2, h3⟩ := (classify_some_iff _ _ _).1 h1
      exact ⟨hdrs, info, h1', h2, h3, h4⟩
  rw [hacc]
  rcases ProcessPacket_cases (self.overlap whileReceiving).1 parsePacket tick packet packetLen
    with ⟨hno, h⟩ | ⟨hyes, h⟩
  · have hnot : ¬ ∃ info, classify (parsePacket packet packetLen) tick = some info ∧
        ShouldRedirectPacket (self.overlap whileReceiving).1.m_gameDatabase
          (self.overlap whileReceiving).1.m_currentGameId info = true := by
      rintro ⟨info, h1, h2⟩
      rcases hno with hno | ⟨info', h1', h2'⟩
      · rw [hno] at h1
        exact Option.noConfusion h1
      · rw [h1'] at h1
        cases h1
        rw [h2'] at h2
        exact Bool.noConfusion h2
    have hpass : self.captureIteration parsePacket tick
        (RecvResult.received packet packetLen addr) whileReceiving beforeSend =
        (LoopControl.next, ((self.overlap whileReceiving).1.overlap beforeSend).1,
          (self.overlap whileReceiving).2 ++
            ((self.overlap whileReceiving).1.overlap beforeSend).2 ++
            [Effect.WinDivertSend
              ((self.overlap whileReceiving).1.overlap beforeSend).1.m_winDivertHandle
              packet packetLen addr]) := by
      simp only [TrafficCapture.captureIteration, hrun, h]
      simp
    refine ⟨fun hyes => absurd hyes hnot, fun _ => ⟨hpass, m2.trans m1, ?_, ?_⟩⟩
    · intro effect heff
      rcases List.mem_append.1 heff with h' | h'
      · exact e1 effect h'
      · exact e2 effect h'
    · intro hs1 hs2
      rw [hpass]
      show (self.overlap whileReceiving).2 ++
            ((self.overlap whileReceiving).1.overlap beforeSend).2 ++ _ = _
      rw [(n1 hs1).2, (n2 hs2).2, (n2 hs2).1, (n1 hs1).1]
      rfl
  · have hpass : self.captureIteration parsePacket tick
        (RecvResult.received packet packetLen addr) whileReceiving beforeSend =
        (LoopControl.next,
          { (self.overlap whileReceiving).1 with m_metrics :=
            { self.m_metrics with
              totalPackets := (self.m_metrics.totalPackets + 1) % 2 ^ 64 } },
          (self.overlap whileReceiving).2) := by
      simp only [TrafficCapture.captureIteration, hrun, h]
      simp [m1]
    refine ⟨fun _ => ⟨hpass, ?_, ?_⟩, fun hnot => absurd hyes hnot⟩
    · intro handle bytes len address hmem
      obtain ⟨h', he⟩ := e1 _ hmem
      exact Effect.noConfusion he
    · intro hlt
      rw [hpass]
      exact Nat.mod_eq_of_lt (by omega)

/-- C1 amended, exercised on the end-to-end scenario with no action of the owner
during the passes: the UDP datagram to port 7001 is counted (0 becomes 1) and
not sent; the TCP segment to port 9999 and an unparsable packet are sent back as
received on handle 77 and the engine is unchanged. -/
theorem scenario_packets_are_dispatched :
    (runningEngine 0).captureIteration replayParser 0 (RecvResult.received [1, 0, 0] 3 [1])
        [] [] =
      (LoopControl.next, runningEngine 1, []) ∧
    (runningEngine 0).captureIteration replayParser 0 (RecvResult.received [2, 5] 2 [1])
        [] [] =
      (LoopControl.next, runningEngine 0, [Effect.WinDivertSend (some 77) [2, 5] 2 [1]]) ∧
    ((runningEngine 0).captureIteration replayParser 0 (RecvResult.received [2, 5] 2 [1])
        [OwnerAction.SetLocalProxyPort 9000] []).2.2 =
      [Effect.WinDivertSend (some 77) [2, 5] 2 [1]] ∧
    (runningEngine 0).captureIteration replayParser 0 (RecvResult.received [9] 1 [1]) [] [] =
      (LoopControl.next, runningEngine 0, [Effect.WinDivertSend (some 77) [9] 1 [1]]) :=
  ⟨((every_packet_counted_or_reinjected (runningEngine 0) replayParser 0 [1, 0, 0] 3 [1] [] []
      rfl).1
      ⟨udpTo7001, (classify (some udpTo7001) 0).get (by decide), rfl, Or.inr (by decide),
        by decide, by decide⟩).1,
   ((every_packet_counted_or_reinjected (runningEngine 0) replayParser 0 [2, 5] 2 [1] [] []
      rfl).2
      (by
        rintro ⟨hdrs, info, h1, _, h3, h4⟩
        cases h1
        cases h3
        revert h4
        decide)).1,
   ((every_packet_counted_or_reinjected (runningEngine 0) replayParser 0 [2, 5] 2 [1]
      [OwnerAction.SetLocalProxyPort 9000] [] rfl).2
      (by
        rintro ⟨hdrs, info, h1, _, h3, h4⟩
        cases h1
        cases h3
        revert h4
        decide)).2.2.2 (by decide) (by decide),
   ((every_packet_counted_or_reinjected (runningEngine 0) replayParser 0 [9] 1 [1] [] [] rfl).2
      (by
        rintro ⟨hdrs, info, h1, _⟩
        cases h1)).1⟩

end GamingProxy
